import Mathlib

/-
Formal model of the VGrisu class of corsikaIOreader (src/VGrisu.cpp).

The C++ code converts CORSIKA shower and photon records to the grisudet
text format.  Floating-point values are idealised as real numbers,
int casts as truncation toward zero, and the two output streams
(the grisu file and cout) as sequences of stream operations tagged by a
destination channel.  External collaborators (the atmset_ and thickx_
routines from the atmosphere model, the C library atan2, the
VCORSIKARunheader printer) are modelled as parameters or abstract items.
-/

open Real

/-- Truncation toward zero of a real number, the semantics of a C++ cast
to int applied to a floating value. -/
noncomputable def cint (x : ℝ) : ℤ := if 0 ≤ x then ⌊x⌋ else ⌈x⌉

/-- Model of VGrisu::redang (src/VGrisu.cpp lines 382-394): reduce an
angle using the two branches of the source, with int truncation toward
zero.  The positive branch subtracts int(iangle/(2 pi)) * 2 pi; the
negative branch adds 2 pi plus int(iangle/(2 pi)) * 2 pi. -/
noncomputable def redang (iangle : ℝ) : ℝ :=
  if 0 ≤ iangle then
    iangle - (cint (iangle / (2 * π)) : ℝ) * (2 * π)
  else
    2 * π + iangle + (cint (iangle / (2 * π)) : ℝ) * (2 * π)

/-- Model of VGrisu::transformCoord (src/VGrisu.cpp lines 372-379): the
azimuth is re-anchored through redang, and the coordinates are swapped
and negated (the source multiplies by -1.).  The source member function
reads and writes no member state, so the model is a pure function of the
three inputs. -/
noncomputable def transformCoord (az x y : ℝ) : ℝ × ℝ × ℝ :=
  (redang (1.5 * π - redang az), -1 * y, -1 * x)

/-- Specification-side frame transform, following the words of the spec:
the transformed azimuth is reduce(1.5 pi - reduce(az)), the transformed
x is -y, the transformed y is -x.  Used only to compare against the
source-derived transformCoord. -/
noncomputable def transformSpec (az x y : ℝ) : ℝ × ℝ × ℝ :=
  (redang (1.5 * π - redang az), -y, -x)

/-- Model of the particle map built by VGrisu::makeParticleMap
(src/VGrisu.cpp lines 347-365): the CORSIKA to kascade particle ID
associations, in source order.  The map is built once at construction
and never mutated afterwards. -/
def particles : List (ℤ × ℤ) :=
  [(1, 1), (2, 2), (3, 3), (5, 4), (6, 5), (7, 6), (8, 7), (9, 8),
   (11, 9), (12, 10), (10, 11), (16, 12), (14, 13), (13, 14)]

/-- Total lookup into the particle map; absence of a mapping yields
none, never an error. -/
def lookupParticle (k : ℤ) : Option ℤ := particles.lookup k

/-- The mutable member state of a VGrisu object. -/
structure VGrisuState where
  degrad : ℝ
  fVersion : String
  bSTDOUT : Bool
  primID : ℤ
  xoff : ℝ
  yoff : ℝ
  qeff : ℝ
  observation_height : ℝ
  atm_id : ℤ

/-- Result of running the VGrisu constructor: the initial member state
and the number of calls made to the external atmosphere initialisation
routine atmset_. -/
structure InitResult where
  state : VGrisuState
  atmsetCalls : ℕ

/-- Model of the constructor VGrisu::VGrisu (src/VGrisu.cpp lines
40-58).  The external routine atmset_ writes the observation height
through a pointer; its output value is the parameter atmObsHeight.
degrad is 45 / atan(1).  qeff is set to 1 and observation_height to 100
before the conditional atmset_ call, which runs only when the
atmosphere id is non-negative. -/
noncomputable def VGrisu (iVersion : String) (id : ℤ) (atmObsHeight : ℝ) : InitResult :=
  if 0 ≤ id then
    ⟨⟨45 / Real.arctan 1, iVersion, false, 0, 0, 0, 1, atmObsHeight, id⟩, 1⟩
  else
    ⟨⟨45 / Real.arctan 1, iVersion, false, 0, 0, 0, 1, 100, id⟩, 0⟩

/-- One item inserted into an output stream: a string literal, a
floating value, an int-cast value, a line break, or the block printed by
the external VCORSIKARunheader printer. -/
inductive Item where
  | str : String → Item
  | num : ℝ → Item
  | int : ℤ → Item
  | endl : Item
  | ext : Item

/-- One operation on an output stream: inserting an item, toggling the
showpos flag, or setting the precision. -/
inductive StreamOp where
  | emit : Item → StreamOp
  | setShowpos : StreamOp
  | unsetShowpos : StreamOp
  | setPrec : ℕ → StreamOp

/-- The formatting state of a C++ output stream: the fixed, right and
showpos flags, the precision and the field width. -/
structure FmtState where
  fixedFlag : Bool
  rightFlag : Bool
  showpos : Bool
  precision : ℕ
  width : ℕ

/-- Run a list of stream operations from a formatting state, returning
the final formatting state and the emitted items, each paired with the
formatting state in effect when it was emitted. -/
def runOps : FmtState → List StreamOp → FmtState × List (FmtState × Item)
  | fmt, [] => (fmt, [])
  | fmt, StreamOp.emit i :: rest =>
      let r := runOps fmt rest
      (r.1, (fmt, i) :: r.2)
  | fmt, StreamOp.setShowpos :: rest => runOps { fmt with showpos := true } rest
  | fmt, StreamOp.unsetShowpos :: rest => runOps { fmt with showpos := false } rest
  | fmt, StreamOp.setPrec n :: rest => runOps { fmt with precision := n } rest

/-- The two possible destinations of the output. -/
inductive Channel where
  | file : Channel
  | console : Channel

/-- Outcome of VGrisu::setOutputfile: either the destination is
selected (with the member state and the formatting state applied to the
chosen stream), or the process exits with a diagnostic and a status. -/
inductive SetOutcome where
  | opened : VGrisuState → FmtState → SetOutcome
  | exited : String → ℤ → SetOutcome

/-- Model of VGrisu::setOutputfile (src/VGrisu.cpp lines 64-85).  The
parameter openOk tells whether opening the file path succeeded; it is
irrelevant when the path is the literal string stdout.  On an open
failure the process prints a diagnostic naming the path and calls
exit(-1).  Otherwise the stream receives the fixed and right flags,
precision 4 and width 15. -/
def setOutputfile (s : VGrisuState) (ofile : String) (openOk : Bool) : SetOutcome :=
  if ofile ≠ "stdout" then
    if openOk = false then
      SetOutcome.exited ("VGrisu::setOutputfile: error opening outputfile: " ++ ofile) (-1)
    else
      SetOutcome.opened s ⟨true, true, false, 4, 15⟩
  else
    SetOutcome.opened { s with bSTDOUT := true } ⟨true, true, false, 4, 15⟩

/-- The shower_sim fields of a telescope_array record that writeEvent
reads: energy, azimuth and altitude (degrees), core coordinates, first
interaction height and the shower identifier. -/
structure ShowerSim where
  energy : ℝ
  azimuth : ℝ
  altitude : ℝ
  xcore : ℝ
  ycore : ℝ
  firstint : ℝ
  shower_id : ℤ

/-- A photon bunch record as read by writePhotons: position, direction
cosines, emission height, arrival time and wavelength. -/
structure Bunch where
  x : ℝ
  y : ℝ
  cx : ℝ
  cy : ℝ
  zem : ℝ
  ctime : ℝ
  lambda : ℝ

/-- Zero snapping applied by writeEvent to the derived direction
cosines: a value of magnitude below 1e-8 is replaced by exactly 0
(src/VGrisu.cpp lines 215-224). -/
noncomputable def snap (v : ℝ) : ℝ := if |v| < 1 / 10 ^ 8 then 0 else v

/-- The member state update performed by VGrisu::writeEvent
(src/VGrisu.cpp lines 210-211): the core coordinates are stored into
xoff and yoff.  The store happens before transformCoord runs on the
local copies, so the untransformed values are retained. -/
def writeEventState (s : VGrisuState) (sim : ShowerSim) : VGrisuState :=
  { s with xoff := sim.xcore, yoff := sim.ycore }

/-- The stream operations of the file branch of VGrisu::writeEvent
(src/VGrisu.cpp lines 232-245 and 262-273).  thickx models the external
atmosphere routine thickx_. -/
noncomputable def writeEventOpsFile (s : VGrisuState) (sim : ShowerSim)
    (printMoreInfo : Bool) (thickx : ℝ → ℝ) : List StreamOp :=
  let phi := sim.azimuth / s.degrad
  let ze := (90 - sim.altitude) / s.degrad
  let t := transformCoord phi sim.xcore sim.ycore
  let dcos := snap (Real.sin ze * Real.cos t.1)
  let dsin := snap (Real.sin ze * Real.sin t.1)
  let ih := 100 * sim.firstint
  let thick := if printMoreInfo then thickx ih / Real.cos ze else -1
  [StreamOp.emit (Item.str "S"),
   StreamOp.emit (Item.str " "), StreamOp.setPrec 7, StreamOp.emit (Item.num sim.energy),
   StreamOp.emit (Item.str " "), StreamOp.setPrec 7, StreamOp.emit (Item.num t.2.1),
   StreamOp.emit (Item.str " "), StreamOp.setPrec 7, StreamOp.emit (Item.num t.2.2),
   StreamOp.emit (Item.str " "), StreamOp.setPrec 7, StreamOp.emit (Item.num dcos),
   StreamOp.emit (Item.str " "), StreamOp.setPrec 7, StreamOp.emit (Item.num dsin),
   StreamOp.emit (Item.str " "), StreamOp.setPrec 7, StreamOp.emit (Item.num sim.firstint),
   StreamOp.emit (Item.str " "), StreamOp.emit (Item.int (-1)),
   StreamOp.emit (Item.str " "), StreamOp.emit (Item.int (-1)),
   StreamOp.emit (Item.str " "), StreamOp.emit (Item.int (-1)),
   StreamOp.emit Item.endl]
  ++ (if printMoreInfo then
       [StreamOp.emit (Item.str "C "), StreamOp.setPrec 7,
        StreamOp.emit (Item.num sim.firstint), StreamOp.emit (Item.str " "),
        StreamOp.emit (Item.num thick), StreamOp.emit (Item.str " "),
        StreamOp.emit (Item.int sim.shower_id), StreamOp.emit Item.endl]
      else [])

/-- The stream operations of the stdout branch of VGrisu::writeEvent
(src/VGrisu.cpp lines 246-259 and 262-273). -/
noncomputable def writeEventOpsStdout (s : VGrisuState) (sim : ShowerSim)
    (printMoreInfo : Bool) (thickx : ℝ → ℝ) : List StreamOp :=
  let phi := sim.azimuth / s.degrad
  let ze := (90 - sim.altitude) / s.degrad
  let t := transformCoord phi sim.xcore sim.ycore
  let dcos := snap (Real.sin ze * Real.cos t.1)
  let dsin := snap (Real.sin ze * Real.sin t.1)
  let ih := 100 * sim.firstint
  let thick := if printMoreInfo then thickx ih / Real.cos ze else -1
  [StreamOp.emit (Item.str "S"),
   StreamOp.emit (Item.str " "), StreamOp.setPrec 7, StreamOp.emit (Item.num sim.energy),
   StreamOp.emit (Item.str " "), StreamOp.setPrec 7, StreamOp.emit (Item.num t.2.1),
   StreamOp.emit (Item.str " "), StreamOp.setPrec 7, StreamOp.emit (Item.num t.2.2),
   StreamOp.emit (Item.str " "), StreamOp.setPrec 7, StreamOp.emit (Item.num dcos),
   StreamOp.emit (Item.str " "), StreamOp.setPrec 7, StreamOp.emit (Item.num dsin),
   StreamOp.emit (Item.str " "), StreamOp.setPrec 7, StreamOp.emit (Item.num sim.firstint),
   StreamOp.emit (Item.str " "), StreamOp.emit (Item.int (-1)),
   StreamOp.emit (Item.str " "), StreamOp.emit (Item.int (-1)),
   StreamOp.emit (Item.str " "), StreamOp.emit (Item.int (-1)),
   StreamOp.emit Item.endl]
  ++ (if printMoreInfo then
       [StreamOp.emit (Item.str "C "), StreamOp.setPrec 7,
        StreamOp.emit (Item.num sim.firstint), StreamOp.emit (Item.str " "),
        StreamOp.emit (Item.num thick), StreamOp.emit (Item.str " "),
        StreamOp.emit (Item.int sim.shower_id), StreamOp.emit Item.endl]
      else [])

/-- Full model of VGrisu::writeEvent (src/VGrisu.cpp lines 203-275):
the state update, the destination channel chosen by the bSTDOUT member,
and the stream operations of the chosen branch. -/
noncomputable def writeEvent (s : VGrisuState) (sim : ShowerSim)
    (printMoreInfo : Bool) (thickx : ℝ → ℝ) : VGrisuState × Channel × List StreamOp :=
  (writeEventState s sim,
   if s.bSTDOUT = false then (Channel.file, writeEventOpsFile s sim printMoreInfo thickx)
   else (Channel.console, writeEventOpsStdout s sim printMoreInfo thickx))

/-- Model of the C library atan2, called by writePhotons on the
direction cosines.  Standard mathematical semantics on the four
half-axes and quadrants; atan2(0, 0) is 0. -/
noncomputable def atan2 (y x : ℝ) : ℝ :=
  if 0 < x then Real.arctan (y / x)
  else if x < 0 then (if 0 ≤ y then Real.arctan (y / x) + π else Real.arctan (y / x) - π)
  else if 0 < y then π / 2
  else if y < 0 then -(π / 2)
  else 0

/-- The zenith angle computed by VGrisu::writePhotons (src/VGrisu.cpp
lines 290-299): the radicand 1 - (cx*cx + cy*cy) is replaced by 0 when
it is not positive, then the square root and acos are taken. -/
noncomputable def photonZe (cx cy : ℝ) : ℝ :=
  Real.arccos (if 0 < 1 - (cx * cx + cy * cy) then Real.sqrt (1 - (cx * cx + cy * cy)) else 0)

/-- The stream operations of the file branch of VGrisu::writePhotons
(src/VGrisu.cpp lines 303-321): the showpos flag is set, the photon
line is emitted, and the flag is cleared. -/
noncomputable def writePhotonsOpsFile (b : Bunch) (i_tel : ℤ) : List StreamOp :=
  let az := atan2 b.cy b.cx
  let ze := photonZe b.cx b.cy
  let t := transformCoord az b.x b.y
  [StreamOp.setShowpos,
   StreamOp.emit (Item.str "P"), StreamOp.emit (Item.str " "),
   StreamOp.setPrec 7, StreamOp.emit (Item.num t.2.1), StreamOp.emit (Item.str " "),
   StreamOp.setPrec 7, StreamOp.emit (Item.num t.2.2), StreamOp.emit (Item.str " "),
   StreamOp.setPrec 7, StreamOp.emit (Item.num (Real.sin ze * Real.cos t.1)), StreamOp.emit (Item.str " "),
   StreamOp.setPrec 7, StreamOp.emit (Item.num (Real.sin ze * Real.sin t.1)), StreamOp.emit (Item.str " "),
   StreamOp.setPrec 7, StreamOp.emit (Item.num b.zem), StreamOp.emit (Item.str " "),
   StreamOp.setPrec 7, StreamOp.emit (Item.num b.ctime), StreamOp.emit (Item.str " "),
   StreamOp.emit (Item.int (cint b.lambda)), StreamOp.emit (Item.str " "),
   StreamOp.emit (Item.int 3), StreamOp.emit (Item.str " "),
   StreamOp.emit (Item.int (i_tel + 1)),
   StreamOp.emit Item.endl,
   StreamOp.unsetShowpos]

/-- The stream operations of the stdout branch of VGrisu::writePhotons
(src/VGrisu.cpp lines 322-341). -/
noncomputable def writePhotonsOpsStdout (b : Bunch) (i_tel : ℤ) : List StreamOp :=
  let az := atan2 b.cy b.cx
  let ze := photonZe b.cx b.cy
  let t := transformCoord az b.x b.y
  [StreamOp.setShowpos,
   StreamOp.emit (Item.str "P"), StreamOp.emit (Item.str " "),
   StreamOp.setPrec 7, StreamOp.emit (Item.num t.2.1), StreamOp.emit (Item.str " "),
   StreamOp.setPrec 7, StreamOp.emit (Item.num t.2.2), StreamOp.emit (Item.str " "),
   StreamOp.setPrec 7, StreamOp.emit (Item.num (Real.sin ze * Real.cos t.1)), StreamOp.emit (Item.str " "),
   StreamOp.setPrec 7, StreamOp.emit (Item.num (Real.sin ze * Real.sin t.1)), StreamOp.emit (Item.str " "),
   StreamOp.setPrec 7, StreamOp.emit (Item.num b.zem), StreamOp.emit (Item.str " "),
   StreamOp.setPrec 7, StreamOp.emit (Item.num b.ctime), StreamOp.emit (Item.str " "),
   StreamOp.emit (Item.int (cint b.lambda)), StreamOp.emit (Item.str " "),
   StreamOp.emit (Item.int 3), StreamOp.emit (Item.str " "),
   StreamOp.emit (Item.int (i_tel + 1)),
   StreamOp.emit Item.endl,
   StreamOp.unsetShowpos]

/-- Full model of VGrisu::writePhotons (src/VGrisu.cpp lines 284-342):
the destination channel chosen by the bSTDOUT member and the stream
operations of the chosen branch. -/
noncomputable def writePhotons (s : VGrisuState) (b : Bunch) (i_tel : ℤ) :
    Channel × List StreamOp :=
  if s.bSTDOUT = false then (Channel.file, writePhotonsOpsFile b i_tel)
  else (Channel.console, writePhotonsOpsStdout b i_tel)

/-- The stream operations of the file branch of VGrisu::writeRunHeader
(src/VGrisu.cpp lines 92-143).  buf models the CORSIKA run header
buffer buf1 by index; hasF tells whether a VCORSIKARunheader pointer
was supplied, in which case its printed block appears as the abstract
item ext. -/
noncomputable def writeRunHeaderOpsFile (s : VGrisuState) (buf : ℕ → ℝ)
    (hasF : Bool) : List StreamOp :=
  [StreamOp.emit (Item.str "* HEADF  <-- Start of header flag"), StreamOp.emit Item.endl,
   StreamOp.emit Item.endl,
   StreamOp.emit (Item.str "photon list created with "), StreamOp.emit (Item.str s.fVersion), StreamOp.emit Item.endl,
   StreamOp.emit Item.endl,
   StreamOp.emit (Item.str "       Photons generated by CORSIKA  (date: "), StreamOp.emit (Item.int (cint (buf 44))), StreamOp.emit (Item.str ")"), StreamOp.emit Item.endl,
   StreamOp.emit Item.endl,
   StreamOp.emit (Item.str "\t CORSIKA run number: "), StreamOp.emit (Item.int (cint (buf 43))), StreamOp.emit Item.endl,
   StreamOp.emit (Item.str "\t CORSIKA version: "), StreamOp.emit (Item.num (buf 45)), StreamOp.emit Item.endl,
   StreamOp.emit Item.endl, StreamOp.emit Item.endl,
   StreamOp.emit (Item.str " TITLE OF RUN: "), StreamOp.emit Item.endl,
   StreamOp.emit (Item.str "\t\t\t Primary energy<min.,max.> TeV = "),
   StreamOp.emit (Item.num (buf 58 / 1000)), StreamOp.emit (Item.str "\t"), StreamOp.emit (Item.num (buf 59 / 1000)), StreamOp.emit Item.endl,
   StreamOp.emit (Item.str "\t\t\t Slope of energy spectrum: "), StreamOp.emit (Item.num (buf 57)), StreamOp.emit Item.endl,
   StreamOp.emit (Item.str "\t\t\t Type code for primary particle (CORSIKA ID) "), StreamOp.emit (Item.int (cint (buf 2))), StreamOp.emit Item.endl,
   StreamOp.emit (Item.str "PTYPE: "), StreamOp.emit (Item.int (cint (buf 2))), StreamOp.emit Item.endl]
  ++ (match lookupParticle (cint (buf 2)) with
      | some v =>
        [StreamOp.emit (Item.str "\t\t\t Type code for primary particle (kascade ID) "), StreamOp.emit (Item.int v), StreamOp.emit Item.endl]
      | none =>
        [StreamOp.emit (Item.str "\t\t\t Type code for primary particle (kascade ID) \t unknown particle (for kascade)"), StreamOp.emit Item.endl])
  ++ [StreamOp.emit (Item.str "\t\t\t Primary zenith angle  (CORSIKA coord.): "), StreamOp.emit (Item.num (buf 10 * s.degrad)), StreamOp.emit Item.endl,
   StreamOp.emit (Item.str "\t\t\t Primary azimuth angle (CORSIKA coord.): "), StreamOp.emit (Item.num (buf 11 * s.degrad)), StreamOp.emit Item.endl,
   StreamOp.emit (Item.str "\t\t\t Primary zenith angle  (kascade coord.): "), StreamOp.emit (Item.num (buf 10 * s.degrad)), StreamOp.emit Item.endl,
   StreamOp.emit (Item.str "\t\t\t Primary azimuth angle (kascade coord.): "), StreamOp.emit (Item.num ((transformCoord (buf 11) 0 0).1 * s.degrad)), StreamOp.emit Item.endl,
   StreamOp.emit (Item.str "\t\t\t Magnetic field (x/z): "), StreamOp.emit (Item.num (buf 70)), StreamOp.emit (Item.str "\t"), StreamOp.emit (Item.num (buf 71)), StreamOp.emit Item.endl,
   StreamOp.emit (Item.str "\t\t\t Observation height [m]: "), StreamOp.emit (Item.num (buf 47 * (1 / 100))), StreamOp.emit Item.endl,
   StreamOp.emit (Item.str "\t\t\t Energy cuts (hadr./muon/el./phot.) [GeV]: "),
   StreamOp.emit (Item.num (buf 60)), StreamOp.emit (Item.str "\t"), StreamOp.emit (Item.num (buf 61)), StreamOp.emit (Item.str "\t"),
   StreamOp.emit (Item.num (buf 62)), StreamOp.emit (Item.str "\t"), StreamOp.emit (Item.num (buf 63)), StreamOp.emit Item.endl,
   StreamOp.emit (Item.str "CORSIKA RUN HEADER (START)"), StreamOp.emit Item.endl]
  ++ (if hasF then [StreamOp.emit Item.ext] else [])
  ++ [StreamOp.emit (Item.str "CORSIKA RUN HEADER (END)"), StreamOp.emit Item.endl,
   StreamOp.emit Item.endl,
   StreamOp.emit (Item.str "* DATAF  <-- end of header flag"), StreamOp.emit Item.endl,
   StreamOp.emit (Item.str "R "), StreamOp.emit (Item.num s.qeff), StreamOp.emit Item.endl,
   StreamOp.emit (Item.str "H "), StreamOp.emit (Item.num s.observation_height), StreamOp.emit Item.endl]

/-- The stream operations of the stdout branch of VGrisu::writeRunHeader
(src/VGrisu.cpp lines 144-196).  The branch differs from the file
branch: the date line ends in a different string, the PTYPE line is
emitted after the kascade ID line instead of before it, and an extra
blank line follows the energy cuts line. -/
noncomputable def writeRunHeaderOpsStdout (s : VGrisuState) (buf : ℕ → ℝ)
    (hasF : Bool) : List StreamOp :=
  [StreamOp.emit (Item.str "* HEADF  <-- Start of header flag"), StreamOp.emit Item.endl,
   StreamOp.emit Item.endl,
   StreamOp.emit (Item.str "photon list created with "), StreamOp.emit (Item.str s.fVersion), StreamOp.emit Item.endl,
   StreamOp.emit Item.endl,
   StreamOp.emit (Item.str "       Photons generated by CORSIKA  (date: "), StreamOp.emit (Item.int (cint (buf 44))), StreamOp.emit (Item.str " C)"), StreamOp.emit Item.endl,
   StreamOp.emit Item.endl,
   StreamOp.emit (Item.str "\t CORSIKA run number: "), StreamOp.emit (Item.int (cint (buf 43))), StreamOp.emit Item.endl,
   StreamOp.emit (Item.str "\t CORSIKA version: "), StreamOp.emit (Item.num (buf 45)), StreamOp.emit Item.endl,
   StreamOp.emit Item.endl, StreamOp.emit Item.endl,
   StreamOp.emit (Item.str " TITLE OF RUN: "), StreamOp.emit Item.endl,
   StreamOp.emit (Item.str "\t\t\t Primary energy<min.,max.> TeV = "),
   StreamOp.emit (Item.num (buf 58 / 1000)), StreamOp.emit (Item.str "\t"), StreamOp.emit (Item.num (buf 59 / 1000)), StreamOp.emit Item.endl,
   StreamOp.emit (Item.str "\t\t\t Slope of energy spectrum: "), StreamOp.emit (Item.num (buf 57)), StreamOp.emit Item.endl,
   StreamOp.emit (Item.str "\t\t\t Type code for primary particle (CORSIKA ID) "), StreamOp.emit (Item.int (cint (buf 2))), StreamOp.emit Item.endl]
  ++ (match lookupParticle (cint (buf 2)) with
      | some v =>
        [StreamOp.emit (Item.str "\t\t\t Type code for primary particle (kascade ID) "), StreamOp.emit (Item.int v), StreamOp.emit Item.endl]
      | none =>
        [StreamOp.emit (Item.str "\t\t\t Type code for primary particle (kascade ID) \t unknown particle (for kascade)"), StreamOp.emit Item.endl])
  ++ [StreamOp.emit (Item.str "PTYPE: "), StreamOp.emit (Item.int (cint (buf 2))), StreamOp.emit Item.endl,
   StreamOp.emit (Item.str "\t\t\t Primary zenith angle  (CORSIKA coord.): "), StreamOp.emit (Item.num (buf 10 * s.degrad)), StreamOp.emit Item.endl,
   StreamOp.emit (Item.str "\t\t\t Primary azimuth angle (CORSIKA coord.): "), StreamOp.emit (Item.num (buf 11 * s.degrad)), StreamOp.emit Item.endl,
   StreamOp.emit (Item.str "\t\t\t Primary zenith angle  (kascade coord.): "), StreamOp.emit (Item.num (buf 10 * s.degrad)), StreamOp.emit Item.endl,
   StreamOp.emit (Item.str "\t\t\t Primary azimuth angle (kascade coord.): "), StreamOp.emit (Item.num ((transformCoord (buf 11) 0 0).1 * s.degrad)), StreamOp.emit Item.endl,
   StreamOp.emit (Item.str "\t\t\t Magnetic field (x/z): "), StreamOp.emit (Item.num (buf 70)), StreamOp.emit (Item.str "\t"), StreamOp.emit (Item.num (buf 71)), StreamOp.emit Item.endl,
   StreamOp.emit (Item.str "\t\t\t Observation height [m]: "), StreamOp.emit (Item.num (buf 47 * (1 / 100))), StreamOp.emit Item.endl,
   StreamOp.emit (Item.str "\t\t\t Energy cuts (hadr./muon/el./phot.) [GeV]: "),
   StreamOp.emit (Item.num (buf 60)), StreamOp.emit (Item.str "\t"), StreamOp.emit (Item.num (buf 61)), StreamOp.emit (Item.str "\t"),
   StreamOp.emit (Item.num (buf 62)), StreamOp.emit (Item.str "\t"), StreamOp.emit (Item.num (buf 63)), StreamOp.emit Item.endl,
   StreamOp.emit Item.endl,
   StreamOp.emit (Item.str "CORSIKA RUN HEADER (START)"), StreamOp.emit Item.endl]
  ++ (if hasF then [StreamOp.emit Item.ext] else [])
  ++ [StreamOp.emit (Item.str "CORSIKA RUN HEADER (END)"), StreamOp.emit Item.endl,
   StreamOp.emit Item.endl,
   StreamOp.emit (Item.str "* DATAF  <-- end of header flag"), StreamOp.emit Item.endl,
   StreamOp.emit (Item.str "R "), StreamOp.emit (Item.num s.qeff), StreamOp.emit Item.endl,
   StreamOp.emit (Item.str "H "), StreamOp.emit (Item.num s.observation_height), StreamOp.emit Item.endl]

/-- Full model of VGrisu::writeRunHeader (src/VGrisu.cpp lines 90-197):
the destination channel chosen by the bSTDOUT member and the stream
operations of the chosen branch. -/
noncomputable def writeRunHeader (s : VGrisuState) (buf : ℕ → ℝ) (hasF : Bool) :
    Channel × List StreamOp :=
  if s.bSTDOUT = false then (Channel.file, writeRunHeaderOpsFile s buf hasF)
  else (Channel.console, writeRunHeaderOpsStdout s buf hasF)

/-- A concrete member state used to instantiate theorems. -/
noncomputable def s0 : VGrisuState := ⟨1, "v", false, 0, 0, 0, 1, 100, -1⟩

/-- A concrete shower record used to instantiate theorems. -/
noncomputable def sim0 : ShowerSim := ⟨1, 0, 0, 1, 2, 10, 5⟩

/-- A concrete photon bunch used to instantiate theorems. -/
noncomputable def b0 : Bunch := ⟨0, 0, 0, 0, 0, 0, 0⟩

theorem redang_zero : redang 0 = 0 := by
  simp [redang, cint]

theorem redang_three_half_pi : redang (1.5 * π) = 1.5 * π := by
  have hπ := Real.pi_pos
  have h0 : (0:ℝ) ≤ 1.5 * π := by positivity
  have hdiv : (1.5 * π) / (2 * π) = 3 / 4 := by
    rw [div_eq_iff (by positivity : (2:ℝ) * π ≠ 0)]
    ring
  have hfloor : cint ((3:ℝ) / 4) = 0 := by
    unfold cint
    rw [if_pos (by norm_num : (0:ℝ) ≤ 3 / 4)]
    rw [Int.floor_eq_zero_iff]
    constructor <;> norm_num
  unfold redang
  rw [if_pos h0, hdiv, hfloor]
  push_cast
  ring

/-- C1: the angle reduction fails on the code: at the failing input
iangle = -2 pi (the integer multiple k = -1) the source returns -2 pi,
which lies outside [0, 2 pi) and is not 0, contradicting both the claim
and the source comment that redang reduces into the interval 0, 2 pi.
The negative branch adds int(iangle/(2 pi)) * 2 pi instead of
subtracting it. -/
theorem redang_neg_two_pi :
    redang (-(2 * π)) = -(2 * π) ∧
    ¬ (0 ≤ redang (-(2 * π)) ∧ redang (-(2 * π)) < 2 * π) ∧
    redang (-(2 * π)) ≠ 0 := by
  have hπ := Real.pi_pos
  have h2 : (0:ℝ) < 2 * π := by positivity
  have key : redang (-(2 * π)) = -(2 * π) := by
    unfold redang
    have hcond : ¬ (0 ≤ -(2 * π)) := by
      simp only [not_le, neg_neg, Left.neg_neg_iff]
      exact h2
    rw [if_neg hcond]
    have hdiv : -(2 * π) / (2 * π) = -1 := by
      field_simp
    rw [hdiv]
    have hcint : cint (-1 : ℝ) = -1 := by
      unfold cint
      rw [if_neg (by norm_num : ¬ ((0:ℝ) ≤ -1))]
      have hcast : ((-1 : ℤ) : ℝ) = (-1 : ℝ) := by norm_num
      rw [← hcast, Int.ceil_intCast]
    rw [hcint]
    push_cast
    ring
  refine ⟨key, ?_, ?_⟩
  · rw [key]
    intro hrange
    linarith [hrange.1]
  · rw [key]
    intro h0
    have : (2:ℝ) * π = 0 := by linarith [neg_eq_zero.mp h0]
    linarith

/-- C2: the frame transform of the source agrees with the transform of
the spec on every input: the azimuth is reduce(1.5 pi - reduce(az)),
the new x is -y, the new y is -x.  The model is a pure function of its
three arguments (the source member function touches no member state),
so identical inputs give identical outputs across calls and instances. -/
theorem transformCoord_refines_spec (az x y : ℝ) :
    transformCoord az x y = transformSpec az x y := by
  unfold transformCoord transformSpec
  norm_num

/-- C3 counterexample: at a concrete input the file branch and the
stdout branch of writeRunHeader emit different operation sequences (the
stdout branch has one more blank line, a different date line and a
moved PTYPE line), so the two destination code paths are not
character-for-character identical. -/
theorem writeRunHeader_branches_differ :
    writeRunHeaderOpsFile s0 (fun _ => 0) false ≠
      writeRunHeaderOpsStdout s0 (fun _ => 0) false := by
  have hc : cint (0 : ℝ) = 0 := by
    unfold cint
    rw [if_pos (le_refl (0:ℝ))]
    exact Int.floor_zero
  have hlp : lookupParticle 0 = none := by decide
  intro h
  have hl := congrArg List.length h
  simp only [writeRunHeaderOpsFile, writeRunHeaderOpsStdout, hc, hlp] at hl
  simp at hl

/-- C3 amended: of the three record writers, writeEvent and
writePhotons do emit the same operation sequence on the file path and
on the stdout path for every input; writeRunHeader does not (the
stdout branch appends a different date suffix, moves the PTYPE line
after the kascade ID line, and inserts an extra blank line after the
energy cuts line). -/
theorem writeEvent_writePhotons_branches_agree (s : VGrisuState) (sim : ShowerSim)
    (pm : Bool) (thickx : ℝ → ℝ) (b : Bunch) (i_tel : ℤ) :
    writeEventOpsFile s sim pm thickx = writeEventOpsStdout s sim pm thickx ∧
    writePhotonsOpsFile b i_tel = writePhotonsOpsStdout b i_tel :=
  ⟨rfl, rfl⟩

/-- C4 counterexample: after writeEvent on a shower with core (1, 2),
the stored offsets are the untransformed core coordinates (1, 2), not
the transformed ones (-2, -1): the source stores xoff and yoff before
calling transformCoord on its local copies. -/
theorem writeEvent_offsets_not_transformed :
    ¬ ((writeEventState s0 sim0).xoff
         = (transformCoord (sim0.azimuth / s0.degrad) sim0.xcore sim0.ycore).2.1 ∧
       (writeEventState s0 sim0).yoff
         = (transformCoord (sim0.azimuth / s0.degrad) sim0.xcore sim0.ycore).2.2) := by
  intro hcl
  have h1 := hcl.1
  simp [writeEventState, transformCoord, s0, sim0] at h1
  norm_num at h1

/-- C4 amended: after writeEvent the offset fields hold the
untransformed core coordinates of the shower, and no emission path of
the class reads them: every writer emits the same operations whatever
values the offset fields hold. -/
theorem writeEvent_offsets_untransformed (s : VGrisuState) (sim : ShowerSim)
    (pm : Bool) (thickx : ℝ → ℝ) (a b : ℝ) (buf : ℕ → ℝ) (hasF : Bool) :
    (writeEventState s sim).xoff = sim.xcore ∧
    (writeEventState s sim).yoff = sim.ycore ∧
    writeEventOpsFile { s with xoff := a, yoff := b } sim pm thickx
      = writeEventOpsFile s sim pm thickx ∧
    writeEventOpsStdout { s with xoff := a, yoff := b } sim pm thickx
      = writeEventOpsStdout s sim pm thickx ∧
    writeRunHeaderOpsFile { s with xoff := a, yoff := b } buf hasF
      = writeRunHeaderOpsFile s buf hasF ∧
    writeRunHeaderOpsStdout { s with xoff := a, yoff := b } buf hasF
      = writeRunHeaderOpsStdout s buf hasF :=
  ⟨rfl, rfl, rfl, rfl, rfl, rfl⟩

/-- C5: in the shower line, the dcos field (position 12 of the
operation sequence) and the dsin field (position 15) carry
sin(ze) * cos(az) and sin(ze) * sin(az) of the transformed azimuth,
each replaced by exactly 0 when its magnitude is below 1e-8 and
emitted unchanged otherwise, on both destination paths. -/
theorem writeEvent_dcos_dsin_snapped (s : VGrisuState) (sim : ShowerSim)
    (pm : Bool) (thickx : ℝ → ℝ) :
    ((writeEventOpsFile s sim pm thickx)[12]? =
      some (StreamOp.emit (Item.num
        (if |Real.sin ((90 - sim.altitude) / s.degrad) *
              Real.cos ((transformCoord (sim.azimuth / s.degrad) sim.xcore sim.ycore).1)|
            < 1 / 10 ^ 8 then 0
         else Real.sin ((90 - sim.altitude) / s.degrad) *
              Real.cos ((transformCoord (sim.azimuth / s.degrad) sim.xcore sim.ycore).1))))) ∧
    ((writeEventOpsFile s sim pm thickx)[15]? =
      some (StreamOp.emit (Item.num
        (if |Real.sin ((90 - sim.altitude) / s.degrad) *
              Real.sin ((transformCoord (sim.azimuth / s.degrad) sim.xcore sim.ycore).1)|
            < 1 / 10 ^ 8 then 0
         else Real.sin ((90 - sim.altitude) / s.degrad) *
              Real.sin ((transformCoord (sim.azimuth / s.degrad) sim.xcore sim.ycore).1))))) ∧
    ((writeEventOpsStdout s sim pm thickx)[12]? =
      some (StreamOp.emit (Item.num
        (if |Real.sin ((90 - sim.altitude) / s.degrad) *
              Real.cos ((transformCoord (sim.azimuth / s.degrad) sim.xcore sim.ycore).1)|
            < 1 / 10 ^ 8 then 0
         else Real.sin ((90 - sim.altitude) / s.degrad) *
              Real.cos ((transformCoord (sim.azimuth / s.degrad) sim.xcore sim.ycore).1))))) ∧
    ((writeEventOpsStdout s sim pm thickx)[15]? =
      some (StreamOp.emit (Item.num
        (if |Real.sin ((90 - sim.altitude) / s.degrad) *
              Real.sin ((transformCoord (sim.azimuth / s.degrad) sim.xcore sim.ycore).1)|
            < 1 / 10 ^ 8 then 0
         else Real.sin ((90 - sim.altitude) / s.degrad) *
              Real.sin ((transformCoord (sim.azimuth / s.degrad) sim.xcore sim.ycore).1))))) :=
  ⟨rfl, rfl, rfl, rfl⟩

/-- C6: the zenith angle of a photon bunch equals
acos(sqrt(max(0, 1 - cx^2 - cy^2))): a radicand that is not positive is
clamped to 0 before the square root, and the photon line is emitted
whatever the direction cosines are (the operation sequence always has
its full fixed length). -/
theorem photonZe_clamps (cx cy : ℝ) (b : Bunch) (tel : ℤ) :
    photonZe cx cy = Real.arccos (Real.sqrt (max 0 (1 - cx ^ 2 - cy ^ 2))) ∧
    (writePhotonsOpsFile b tel).length = 28 ∧
    (writePhotonsOpsStdout b tel).length = 28 := by
  refine ⟨?_, rfl, rfl⟩
  unfold photonZe
  have he : 1 - (cx * cx + cy * cy) = 1 - cx ^ 2 - cy ^ 2 := by ring
  rw [he]
  by_cases h : 0 < 1 - cx ^ 2 - cy ^ 2
  · rw [if_pos h, max_eq_right h.le]
  · rw [if_neg h, max_eq_left (not_lt.1 h), Real.sqrt_zero]

/-- C7: when the output path is not the literal string stdout and the
open fails, setOutputfile ends in a process exit with the non-zero
status -1 and a diagnostic that names the failed path; when the path is
exactly stdout the selection always succeeds, sets the bSTDOUT member,
and every subsequent writer on such a state routes to the console
channel, never to the file channel. -/
theorem setOutputfile_spec (s : VGrisuState) (ofile : String) (openOk : Bool)
    (sim : ShowerSim) (pm : Bool) (thickx : ℝ → ℝ) (b : Bunch) (tel : ℤ)
    (buf : ℕ → ℝ) (hasF : Bool) :
    (ofile ≠ "stdout" → openOk = false →
      setOutputfile s ofile openOk =
        SetOutcome.exited ("VGrisu::setOutputfile: error opening outputfile: " ++ ofile) (-1) ∧
      ((-1 : ℤ) ≠ 0)) ∧
    (setOutputfile s "stdout" openOk =
      SetOutcome.opened { s with bSTDOUT := true } ⟨true, true, false, 4, 15⟩) ∧
    ((writeEvent { s with bSTDOUT := true } sim pm thickx).2.1 = Channel.console) ∧
    ((writePhotons { s with bSTDOUT := true } b tel).1 = Channel.console) ∧
    ((writeRunHeader { s with bSTDOUT := true } buf hasF).1 = Channel.console) := by
  refine ⟨?_, ?_, ?_, ?_, ?_⟩
  · intro h1 h2
    refine ⟨?_, by decide⟩
    simp [setOutputfile, h1, h2]
  · simp [setOutputfile]
  · simp [writeEvent]
  · simp [writePhotons]
  · simp [writeRunHeader]

/-- Witness for C7 at the concrete path out.txt with a failed open and
at the concrete path stdout. -/
theorem setOutputfile_spec_witness :
    setOutputfile s0 "out.txt" false =
      SetOutcome.exited ("VGrisu::setOutputfile: error opening outputfile: " ++ "out.txt") (-1) ∧
    setOutputfile s0 "stdout" true =
      SetOutcome.opened { s0 with bSTDOUT := true } ⟨true, true, false, 4, 15⟩ :=
  ⟨((setOutputfile_spec s0 "out.txt" false sim0 false (fun _ => 0) b0 0 (fun _ => 0) false).1
      (by decide) rfl).1,
   (setOutputfile_spec s0 "stdout" true sim0 false (fun _ => 0) b0 0 (fun _ => 0) false).2.1⟩

/-- C8: the particle map lookup is total and matches the documented
codes: 1 maps to 1, 14 maps to 13, and 99, 4 and 15 are absent, giving
the empty result; and whenever the primary code of a run header buffer
is absent from the map, both branches of writeRunHeader render the
unknown particle annotation instead of failing. -/
theorem lookupParticle_spec (s : VGrisuState) (buf : ℕ → ℝ) (hasF : Bool) :
    lookupParticle 1 = some 1 ∧ lookupParticle 14 = some 13 ∧
    lookupParticle 99 = none ∧ lookupParticle 4 = none ∧ lookupParticle 15 = none ∧
    (lookupParticle (cint (buf 2)) = none →
      StreamOp.emit (Item.str "\t\t\t Type code for primary particle (kascade ID) \t unknown particle (for kascade)")
        ∈ writeRunHeaderOpsFile s buf hasF ∧
      StreamOp.emit (Item.str "\t\t\t Type code for primary particle (kascade ID) \t unknown particle (for kascade)")
        ∈ writeRunHeaderOpsStdout s buf hasF) := by
  refine ⟨by decide, by decide, by decide, by decide, by decide, ?_⟩
  intro h
  constructor
  · simp only [writeRunHeaderOpsFile, h]
    simp
  · simp only [writeRunHeaderOpsStdout, h]
    simp

/-- Witness for C8 at the concrete absent code 99. -/
theorem lookupParticle_spec_witness :
    StreamOp.emit (Item.str "\t\t\t Type code for primary particle (kascade ID) \t unknown particle (for kascade)")
      ∈ writeRunHeaderOpsFile s0 (fun _ => 99) false :=
  ((lookupParticle_spec s0 (fun _ => 99) false).2.2.2.2.2
    (by
      have hc : cint ((99 : ℝ)) = 99 := by
        unfold cint
        rw [if_pos (by norm_num : (0:ℝ) ≤ 99)]
        norm_num
      show lookupParticle (cint ((fun _ => (99:ℝ)) 2)) = none
      simp only [hc]
      decide)).1

/-- C9: after construction, qeff is 1 whatever the arguments; a
negative atmosphere id leaves the observation height at its default 100
and makes no atmosphere initialisation call; a non-negative id makes
exactly one atmosphere initialisation call, which supplies the
observation height. -/
theorem VGrisu_ctor_spec (v : String) (id : ℤ) (h : ℝ) :
    (VGrisu v id h).state.qeff = 1 ∧
    (id < 0 →
      (VGrisu v id h).state.observation_height = 100 ∧ (VGrisu v id h).atmsetCalls = 0) ∧
    (0 ≤ id →
      (VGrisu v id h).state.observation_height = h ∧ (VGrisu v id h).atmsetCalls = 1) := by
  refine ⟨?_, ?_, ?_⟩
  · by_cases h0 : 0 ≤ id <;> simp [VGrisu, h0]
  · intro hneg
    have h0 : ¬ 0 ≤ id := by omega
    simp [VGrisu, h0]
  · intro h0
    simp [VGrisu, h0]

/-- Witness for C9 at the concrete atmosphere ids -1 and 3. -/
theorem VGrisu_ctor_spec_witness :
    (VGrisu "v" (-1) 7).state.observation_height = 100 ∧
    (VGrisu "v" (-1) 7).atmsetCalls = 0 ∧
    (VGrisu "v" 3 7).state.observation_height = 7 ∧
    (VGrisu "v" 3 7).atmsetCalls = 1 :=
  ⟨((VGrisu_ctor_spec "v" (-1) 7).2.1 (by decide)).1,
   ((VGrisu_ctor_spec "v" (-1) 7).2.1 (by decide)).2,
   ((VGrisu_ctor_spec "v" 3 7).2.2 (by decide)).1,
   ((VGrisu_ctor_spec "v" 3 7).2.2 (by decide)).2⟩

theorem photon_tiny_value :
    Real.sin (photonZe (1 / 10 ^ 9) 0) *
      Real.sin ((transformCoord (atan2 0 (1 / 10 ^ 9)) 0 0).1) = -(1 / 10 ^ 9) := by
  have hc : (0:ℝ) < 1 / 10 ^ 9 := by norm_num
  have haz : atan2 0 (1 / 10 ^ 9) = 0 := by
    unfold atan2
    rw [if_pos hc, zero_div, Real.arctan_zero]
  have haz2 : (transformCoord (atan2 0 (1 / 10 ^ 9)) 0 0).1 = 1.5 * π := by
    rw [haz]
    show redang (1.5 * π - redang 0) = 1.5 * π
    rw [redang_zero, sub_zero, redang_three_half_pi]
  have hsin32 : Real.sin (1.5 * π) = -1 := by
    have h15 : (1.5:ℝ) * π = π + π / 2 := by ring
    rw [h15, Real.sin_add]
    simp
  have ht : (0:ℝ) < 1 - (1 / 10 ^ 9 * (1 / 10 ^ 9) + 0 * 0) := by norm_num
  have hze : photonZe (1 / 10 ^ 9) 0 =
      Real.arccos (Real.sqrt (1 - (1 / 10 ^ 9 * (1 / 10 ^ 9) + 0 * 0))) := by
    unfold photonZe
    rw [if_pos ht]
  have h1t : (1:ℝ) - (1 / 10 ^ 9 * (1 / 10 ^ 9) + 0 * 0) = 1 - 1 / 10 ^ 18 := by norm_num
  have hsinze : Real.sin (photonZe (1 / 10 ^ 9) 0) = 1 / 10 ^ 9 := by
    rw [hze, h1t, Real.sin_arccos]
    rw [Real.sq_sqrt (by norm_num : (0:ℝ) ≤ 1 - 1 / 10 ^ 18)]
    have hsq : (1:ℝ) - (1 - 1 / 10 ^ 18) = (1 / 10 ^ 9) ^ 2 := by norm_num
    rw [hsq, Real.sqrt_sq (by norm_num : (0:ℝ) ≤ 1 / 10 ^ 9)]
  rw [haz2, hsin32, hsinze]
  ring

/-- C10: photon lines carry their direction-cosine fields exactly as
computed, with no 1e-8 snapping (at the concrete bunch with cx = 1e-9
the emitted value is -1e-9, whose magnitude is below 1e-8 yet which is
not replaced by 0), and the showpos flag is raised before every item of
the line and cleared after it, so a run of the line from any formatting
state ends with the flag clear. -/
theorem writePhotons_raw_and_showpos (b : Bunch) (tel : ℤ) (fmt : FmtState) :
    ((writePhotonsOpsFile b tel)[10]? =
      some (StreamOp.emit (Item.num (Real.sin (photonZe b.cx b.cy) *
        Real.cos ((transformCoord (atan2 b.cy b.cx) b.x b.y).1))))) ∧
    ((writePhotonsOpsFile b tel)[13]? =
      some (StreamOp.emit (Item.num (Real.sin (photonZe b.cx b.cy) *
        Real.sin ((transformCoord (atan2 b.cy b.cx) b.x b.y).1))))) ∧
    ((runOps fmt (writePhotonsOpsFile b tel)).1.showpos = false) ∧
    (((runOps fmt (writePhotonsOpsFile b tel)).2.all fun p => p.1.showpos) = true) ∧
    ((writePhotonsOpsFile ⟨0, 0, 1 / 10 ^ 9, 0, 0, 0, 0⟩ 0)[13]? =
      some (StreamOp.emit (Item.num (-(1 / 10 ^ 9)))) ∧
     |(-(1 / 10 ^ 9) : ℝ)| < 1 / 10 ^ 8 ∧ (-(1 / 10 ^ 9) : ℝ) ≠ 0) := by
  refine ⟨rfl, rfl, ?_, ?_, ?_,
    by rw [abs_neg, abs_of_pos (by norm_num : (0:ℝ) < 1 / 10 ^ 9)]; norm_num,
    by norm_num⟩
  · simp [writePhotonsOpsFile, runOps]
  · simp [writePhotonsOpsFile, runOps]
  · have h13 : (writePhotonsOpsFile ⟨0, 0, 1 / 10 ^ 9, 0, 0, 0, 0⟩ 0)[13]? =
        some (StreamOp.emit (Item.num (Real.sin (photonZe (1 / 10 ^ 9) 0) *
          Real.sin ((transformCoord (atan2 0 (1 / 10 ^ 9)) 0 0).1)))) := rfl
    rw [h13, photon_tiny_value]
